import Mathlib

/-!
Shallow embedding of the RV32I execution core of the riscland repository
(`src/cpu.rs`).  Register values, the program counter and instruction words
are `Nat` values below `2^32`; Rust `i32` intermediates are `Int` values in
the two's-complement range.  Rust operations that panic (explicit `panic!`
calls, and arithmetic overflow under debug assertions) are modelled with an
`Except` error result.  The modules `opcode.rs`, `memory.rs` and
`registers.rs` are not part of the sources; their constants and contracts
are modelled from the specification (standard RV32 encodings, §4.1–4.2, and
the bus contract of §6), and each such definition is marked below.
-/

namespace RV

/-- Modelled from the spec: opcode constants from `opcode.rs` (absent from
the sources); §4.1–4.2 fix the standard RV32 encoding. -/
def LUI : Nat := 0x37

/-- Modelled from the spec: standard RV32 opcode (missing `opcode.rs`). -/
def AUIPC : Nat := 0x17

/-- Modelled from the spec: standard RV32 opcode (missing `opcode.rs`). -/
def JAL : Nat := 0x6f

/-- Modelled from the spec: standard RV32 opcode (missing `opcode.rs`). -/
def JALR : Nat := 0x67

/-- Modelled from the spec: standard RV32 opcode (missing `opcode.rs`). -/
def B_TYPE : Nat := 0x63

/-- Modelled from the spec: standard RV32 opcode (missing `opcode.rs`). -/
def LOAD : Nat := 0x03

/-- Modelled from the spec: standard RV32 opcode (missing `opcode.rs`). -/
def S_TYPE : Nat := 0x23

/-- Modelled from the spec: standard RV32 opcode (missing `opcode.rs`). -/
def I_TYPE : Nat := 0x13

/-- Modelled from the spec: standard RV32 opcode (missing `opcode.rs`). -/
def R_TYPE : Nat := 0x33

/-- Modelled from the spec: standard RV32 opcode (missing `opcode.rs`). -/
def FENCE : Nat := 0x0f

/-- Modelled from the spec: standard RV32 opcode (missing `opcode.rs`). -/
def CSR : Nat := 0x73

/-- Modelled from the spec: B-type funct3 values (missing `opcode.rs`). -/
def BEQ : Nat := 0x0

/-- Modelled from the spec: B-type funct3 (missing `opcode.rs`). -/
def BNE : Nat := 0x1

/-- Modelled from the spec: B-type funct3 (missing `opcode.rs`). -/
def BLT : Nat := 0x4

/-- Modelled from the spec: B-type funct3 (missing `opcode.rs`). -/
def BGE : Nat := 0x5

/-- Modelled from the spec: B-type funct3 (missing `opcode.rs`). -/
def BLTU : Nat := 0x6

/-- Modelled from the spec: B-type funct3 (missing `opcode.rs`). -/
def BGEU : Nat := 0x7

/-- Modelled from the spec: load funct3 (missing `opcode.rs`). -/
def LB : Nat := 0x0

/-- Modelled from the spec: load funct3 (missing `opcode.rs`). -/
def LH : Nat := 0x1

/-- Modelled from the spec: load funct3 (missing `opcode.rs`). -/
def LW : Nat := 0x2

/-- Modelled from the spec: load funct3 (missing `opcode.rs`). -/
def LBU : Nat := 0x4

/-- Modelled from the spec: load funct3 (missing `opcode.rs`). -/
def LHU : Nat := 0x5

/-- Modelled from the spec: load funct3 (missing `opcode.rs`). -/
def LWU : Nat := 0x6

/-- Modelled from the spec: store funct3 (missing `opcode.rs`). -/
def SB : Nat := 0x0

/-- Modelled from the spec: store funct3 (missing `opcode.rs`). -/
def SH : Nat := 0x1

/-- Modelled from the spec: store funct3 (missing `opcode.rs`). -/
def SW : Nat := 0x2

/-- Modelled from the spec: I-type funct3 (missing `opcode.rs`). -/
def ADDI : Nat := 0x0

/-- Modelled from the spec: I-type funct3 (missing `opcode.rs`). -/
def SLLI : Nat := 0x1

/-- Modelled from the spec: I-type funct3 (missing `opcode.rs`). -/
def SLTI : Nat := 0x2

/-- Modelled from the spec: I-type funct3 (missing `opcode.rs`). -/
def SLTIU : Nat := 0x3

/-- Modelled from the spec: I-type funct3 (missing `opcode.rs`). -/
def XORI : Nat := 0x4

/-- Modelled from the spec: I-type funct3 shared by SRLI/SRAI (missing `opcode.rs`). -/
def SRI : Nat := 0x5

/-- Modelled from the spec: I-type funct3 (missing `opcode.rs`). -/
def ORI : Nat := 0x6

/-- Modelled from the spec: I-type funct3 (missing `opcode.rs`). -/
def ANDI : Nat := 0x7

/-- Modelled from the spec: funct7 of SRLI (missing `opcode.rs`). -/
def SRLI : Nat := 0x00

/-- Modelled from the spec: funct7 of SRAI (missing `opcode.rs`). -/
def SRAI : Nat := 0x20

/-- Modelled from the spec: R-type funct3 shared by ADD/SUB (missing `opcode.rs`). -/
def ADDSUB : Nat := 0x0

/-- Modelled from the spec: R-type funct3 (missing `opcode.rs`). -/
def SLL : Nat := 0x1

/-- Modelled from the spec: R-type funct3 (missing `opcode.rs`). -/
def SLT : Nat := 0x2

/-- Modelled from the spec: R-type funct3 (missing `opcode.rs`). -/
def SLTU : Nat := 0x3

/-- Modelled from the spec: R-type funct3 (missing `opcode.rs`). -/
def XOR : Nat := 0x4

/-- Modelled from the spec: R-type funct3 shared by SRL/SRA (missing `opcode.rs`). -/
def SR : Nat := 0x5

/-- Modelled from the spec: R-type funct3 (missing `opcode.rs`). -/
def OR : Nat := 0x6

/-- Modelled from the spec: R-type funct3 (missing `opcode.rs`). -/
def AND : Nat := 0x7

/-- Modelled from the spec: funct7 of ADD (missing `opcode.rs`). -/
def ADD : Nat := 0x00

/-- Modelled from the spec: funct7 of SUB (missing `opcode.rs`). -/
def SUB : Nat := 0x20

/-- Modelled from the spec: funct7 of SRL (missing `opcode.rs`). -/
def SRL : Nat := 0x00

/-- Modelled from the spec: funct7 of SRA (missing `opcode.rs`). -/
def SRA : Nat := 0x20

/-- Modelled from the spec: funct3 of ECALL (missing `opcode.rs`); §4.2 says
the ECALL/EBREAK pair shares a funct3 and is distinguished by the low
immediate bit. -/
def ECALL : Nat := 0x0

/-- Modelled from the spec: funct3 of EBREAK (missing `opcode.rs`), equal to
that of ECALL, the pair distinguished by the low immediate bit. -/
def EBREAK : Nat := 0x0

/-- Modelled from the spec: CSR funct3 (missing `opcode.rs`). -/
def CSRRW : Nat := 0x1

/-- Modelled from the spec: CSR funct3 (missing `opcode.rs`). -/
def CSRRS : Nat := 0x2

/-- Modelled from the spec: CSR funct3 (missing `opcode.rs`). -/
def CSRRC : Nat := 0x3

/-- Modelled from the spec: CSR funct3 (missing `opcode.rs`). -/
def CSRRWI : Nat := 0x5

/-- Modelled from the spec: CSR funct3 (missing `opcode.rs`). -/
def CSRRSI : Nat := 0x6

/-- Modelled from the spec: CSR funct3 (missing `opcode.rs`). -/
def CSRRCI : Nat := 0x7

/-- Reinterpret a `u32` bit pattern as a Rust `i32` (`x as i32`). -/
def u32ToI32 (x : Nat) : Int :=
  if x < 2147483648 then (x : Int) else (x : Int) - 4294967296

/-- Reinterpret an `i32` value as a Rust `u32` (`x as u32`): reduce mod `2^32`. -/
def i32ToU32 (x : Int) : Nat :=
  (x % 4294967296).toNat

/-- Two's-complement wraparound into the `i32` range, the result of Rust
`wrapping_add`/`wrapping_sub` and of value bits discarded by `i32` shifts. -/
def i32wrap (x : Int) : Int :=
  (x + 2147483648) % 4294967296 - 2147483648

/-- Sign extension of a `w`-bit value to a signed integer (replicates the top
bit of the `w`-bit field). -/
def sext (w : Nat) (v : Nat) : Int :=
  if v < 2 ^ (w - 1) then (v : Int) else (v : Int) - 2 ^ w

/-- Modelled from the spec: destination register field `rd` = bits 11:7
(missing `opcode.rs`, field table of §4.1). -/
def rd (instr : Nat) : Nat := (instr >>> 7) &&& 0x1f

/-- Modelled from the spec: source register field `rs1` = bits 19:15. -/
def rs1 (instr : Nat) : Nat := (instr >>> 15) &&& 0x1f

/-- Modelled from the spec: source register field `rs2` = bits 24:20. -/
def rs2 (instr : Nat) : Nat := (instr >>> 20) &&& 0x1f

/-- Modelled from the spec: I-immediate, sign-extended bits 31:20 (§4.1),
returned as a Rust `i32`. -/
def imm_i (instr : Nat) : Int := sext 12 ((instr >>> 20) &&& 0xfff)

/-- Modelled from the spec: S-immediate, sign extension of bits
31:25 ++ 11:7 (§4.1). -/
def imm_s (instr : Nat) : Int :=
  sext 12 ((((instr >>> 25) &&& 0x7f) <<< 5) ||| ((instr >>> 7) &&& 0x1f))

/-- Modelled from the spec: B-immediate, sign extension of
bit 31 ++ bit 7 ++ bits 30:25 ++ bits 11:8 ++ 0 (§4.1). -/
def imm_b (instr : Nat) : Int :=
  sext 13 ((((instr >>> 31) &&& 0x1) <<< 12) ||| (((instr >>> 7) &&& 0x1) <<< 11) |||
    (((instr >>> 25) &&& 0x3f) <<< 5) ||| (((instr >>> 8) &&& 0xf) <<< 1))

/-- Modelled from the spec: U-immediate, bits 31:12 with the low 12 bits
zero (§4.1), returned as a `u32` bit pattern. -/
def imm_u (instr : Nat) : Nat := instr &&& 0xfffff000

/-- Modelled from the spec: J-immediate, sign extension of
bit 31 ++ bits 19:12 ++ bit 20 ++ bits 30:21 ++ 0 (§4.1). -/
def imm_j (instr : Nat) : Int :=
  sext 21 ((((instr >>> 31) &&& 0x1) <<< 20) ||| (((instr >>> 12) &&& 0xff) <<< 12) |||
    (((instr >>> 20) &&& 0x1) <<< 11) ||| (((instr >>> 21) &&& 0x3ff) <<< 1))

/-- Modelled from the spec: `shamt` is the low 5 bits of the I-immediate
field (§4.1). -/
def shamt (instr : Nat) : Nat := i32ToU32 (imm_i instr) &&& 0x1f

/-- Modelled from the spec: the memory bus (external collaborator, §6).  Its
load behaviour is an arbitrary function of address and width, restricted to
the unsigned value of the requested bit width; stores are recorded as a
trace.  `memory.rs` is absent from the sources. -/
structure BUS where
  loadFn : Nat → Nat → Nat
  stores : List (Nat × Nat × Nat)

/-- Modelled from the spec: `load(address, width) -> u32` yields the unsigned
value of the given bit width at the address (§6). -/
def BUS.load (b : BUS) (addr : Nat) (width : Nat) : Nat :=
  b.loadFn addr width % 2 ^ width

/-- Modelled from the spec: `store(address, width, value)` hands the value to
the collaborator; recorded in the trace. -/
def BUS.store (b : BUS) (addr : Nat) (width : Nat) (val : Nat) : BUS :=
  { b with stores := (addr, width, val) :: b.stores }

/-- CPU state of `cpu.rs`: the register file (`registers.rs` is absent; the
spec fixes it as 32 machine words, §3), the program counter and the bus. -/
structure CPU where
  xregs : List Nat
  pc : Nat
  bus : BUS

/-- Runtime conditions `cpu.rs` stops on: an explicit `panic!` in the
dispatcher, or an arithmetic overflow of an unchecked Rust operation
(which panics under debug assertions). -/
inductive RErr where
  | panicked : RErr
  | overflow : RErr
deriving DecidableEq, Repr

/-- `exec_lui` (cpu.rs:129): `rd ← (imm_u(instr) as i32) as u32`. -/
def exec_lui (cpu : CPU) (instr : Nat) : Except RErr CPU :=
  let imm := i32ToU32 (u32ToI32 (imm_u instr))
  .ok { cpu with xregs := cpu.xregs.set (rd instr) imm }

/-- `exec_auipc` (cpu.rs:134): `rd ← (pc as i32).wrapping_add(imm_u as i32) as u32`. -/
def exec_auipc (cpu : CPU) (instr : Nat) : Except RErr CPU :=
  let imm := u32ToI32 (imm_u instr)
  .ok { cpu with
    xregs := cpu.xregs.set (rd instr) (i32ToU32 (i32wrap (u32ToI32 cpu.pc + imm))) }

/-- `exec_jal` (cpu.rs:139): `rd ← pc.wrapping_add(4)`;
`pc ← ((pc as i32).wrapping_add(imm_j)).wrapping_sub(4) as u32`. -/
def exec_jal (cpu : CPU) (instr : Nat) : Except RErr CPU :=
  let imm := imm_j instr
  .ok { cpu with
    xregs := cpu.xregs.set (rd instr) ((cpu.pc + 4) % 4294967296),
    pc := i32ToU32 (i32wrap (i32wrap (u32ToI32 cpu.pc + imm) - 4)) }

/-- `exec_jalr` (cpu.rs:144): `rd ← pc + 4` (unchecked `u32` addition), then
`pc ← (xregs[rs1] as i32).wrapping_add(imm_i) as u32 & 0xfffffffe`, reading
`rs1` from the already-updated register file. -/
def exec_jalr (cpu : CPU) (instr : Nat) : Except RErr CPU :=
  let imm := imm_i instr
  if 4294967296 ≤ cpu.pc + 4 then .error .overflow else
  let xregs := cpu.xregs.set (rd instr) (cpu.pc + 4)
  .ok { cpu with
    xregs := xregs,
    pc := i32ToU32 (i32wrap (u32ToI32 (xregs.getD (rs1 instr) 0) + imm)) &&& 0xfffffffe }

/-- `exec_beq` (cpu.rs:150): if `xregs[rs1] == xregs[rs2]` then
`pc ← (pc as i32).wrapping_add(imm_b).wrapping_sub(4) as u32`. -/
def exec_beq (cpu : CPU) (instr : Nat) : Except RErr CPU :=
  let imm := imm_b instr
  if cpu.xregs.getD (rs1 instr) 0 = cpu.xregs.getD (rs2 instr) 0 then
    .ok { cpu with pc := i32ToU32 (i32wrap (i32wrap (u32ToI32 cpu.pc + imm) - 4)) }
  else
    .ok cpu

/-- `exec_bne` (cpu.rs:156). -/
def exec_bne (cpu : CPU) (instr : Nat) : Except RErr CPU :=
  let imm := imm_b instr
  if cpu.xregs.getD (rs1 instr) 0 ≠ cpu.xregs.getD (rs2 instr) 0 then
    .ok { cpu with pc := i32ToU32 (i32wrap (i32wrap (u32ToI32 cpu.pc + imm) - 4)) }
  else
    .ok cpu

/-- `exec_blt` (cpu.rs:163): signed comparison `(rs1 as i32) < (rs2 as i32)`. -/
def exec_blt (cpu : CPU) (instr : Nat) : Except RErr CPU :=
  let imm := imm_b instr
  if u32ToI32 (cpu.xregs.getD (rs1 instr) 0) < u32ToI32 (cpu.xregs.getD (rs2 instr) 0) then
    .ok { cpu with pc := i32ToU32 (i32wrap (i32wrap (u32ToI32 cpu.pc + imm) - 4)) }
  else
    .ok cpu

/-- `exec_bge` (cpu.rs:170): signed comparison `(rs1 as i32) >= (rs2 as i32)`. -/
def exec_bge (cpu : CPU) (instr : Nat) : Except RErr CPU :=
  let imm := imm_b instr
  if u32ToI32 (cpu.xregs.getD (rs1 instr) 0) ≥ u32ToI32 (cpu.xregs.getD (rs2 instr) 0) then
    .ok { cpu with pc := i32ToU32 (i32wrap (i32wrap (u32ToI32 cpu.pc + imm) - 4)) }
  else
    .ok cpu

/-- `exec_bltu` (cpu.rs:177): unsigned comparison of the `u32` registers. -/
def exec_bltu (cpu : CPU) (instr : Nat) : Except RErr CPU :=
  let imm := imm_b instr
  if cpu.xregs.getD (rs1 instr) 0 < cpu.xregs.getD (rs2 instr) 0 then
    .ok { cpu with pc := i32ToU32 (i32wrap (i32wrap (u32ToI32 cpu.pc + imm) - 4)) }
  else
    .ok cpu

/-- `exec_bgeu` (cpu.rs:183): unsigned comparison of the `u32` registers. -/
def exec_bgeu (cpu : CPU) (instr : Nat) : Except RErr CPU :=
  let imm := imm_b instr
  if cpu.xregs.getD (rs1 instr) 0 ≥ cpu.xregs.getD (rs2 instr) 0 then
    .ok { cpu with pc := i32ToU32 (i32wrap (i32wrap (u32ToI32 cpu.pc + imm) - 4)) }
  else
    .ok cpu

/-- Effective address of the signed load variants (cpu.rs:192, 200, 208):
`(xregs[rs1] as i32).wrapping_add(imm_i) as u32`. -/
def loadAddrSigned (cpu : CPU) (instr : Nat) : Nat :=
  i32ToU32 (i32wrap (u32ToI32 (cpu.xregs.getD (rs1 instr) 0) + imm_i instr))

/-- Effective address of the unsigned load variants (cpu.rs:216, 222, 228):
`xregs[rs1].wrapping_add(imm_i as u32)`. -/
def loadAddrUnsigned (cpu : CPU) (instr : Nat) : Nat :=
  (cpu.xregs.getD (rs1 instr) 0 + i32ToU32 (imm_i instr)) % 4294967296

/-- `exec_lb` (cpu.rs:189): fetches 8 bits, then
`rd ← ((load_i8 << 26) >> 26) as u32` — an `i32` left shift discarding the
overflowing value bits, followed by an arithmetic right shift. -/
def exec_lb (cpu : CPU) (instr : Nat) : Except RErr CPU :=
  let load_i8 := u32ToI32 (cpu.bus.load (loadAddrSigned cpu instr) 8)
  .ok { cpu with
    xregs := cpu.xregs.set (rd instr)
      (i32ToU32 (Int.ediv (i32wrap (load_i8 * 2 ^ 26)) (2 ^ 26))) }

/-- `exec_lh` (cpu.rs:197): fetches 16 bits, then
`rd ← ((load_i16 << 16) >> 16) as u32`. -/
def exec_lh (cpu : CPU) (instr : Nat) : Except RErr CPU :=
  let load_i16 := u32ToI32 (cpu.bus.load (loadAddrSigned cpu instr) 16)
  .ok { cpu with
    xregs := cpu.xregs.set (rd instr)
      (i32ToU32 (Int.ediv (i32wrap (load_i16 * 2 ^ 16)) (2 ^ 16))) }

/-- `exec_lw` (cpu.rs:205): `rd ← bus.load(addr, 32)`. -/
def exec_lw (cpu : CPU) (instr : Nat) : Except RErr CPU :=
  .ok { cpu with
    xregs := cpu.xregs.set (rd instr) (cpu.bus.load (loadAddrSigned cpu instr) 32) }

/-- `exec_lbu` (cpu.rs:212): `rd ← bus.load(rs1.wrapping_add(imm_i as u32), 8)`. -/
def exec_lbu (cpu : CPU) (instr : Nat) : Except RErr CPU :=
  .ok { cpu with
    xregs := cpu.xregs.set (rd instr) (cpu.bus.load (loadAddrUnsigned cpu instr) 8) }

/-- `exec_lhu` (cpu.rs:218). -/
def exec_lhu (cpu : CPU) (instr : Nat) : Except RErr CPU :=
  .ok { cpu with
    xregs := cpu.xregs.set (rd instr) (cpu.bus.load (loadAddrUnsigned cpu instr) 16) }

/-- `exec_lwu` (cpu.rs:224). -/
def exec_lwu (cpu : CPU) (instr : Nat) : Except RErr CPU :=
  .ok { cpu with
    xregs := cpu.xregs.set (rd instr) (cpu.bus.load (loadAddrUnsigned cpu instr) 32) }

/-- `exec_sb` (cpu.rs:230): store the low byte of `rs2` at
`(rs1 as i32).wrapping_add(imm_s) as u32`. -/
def exec_sb (cpu : CPU) (instr : Nat) : Except RErr CPU :=
  let addr := i32ToU32 (i32wrap (u32ToI32 (cpu.xregs.getD (rs1 instr) 0) + imm_s instr))
  let val := cpu.xregs.getD (rs2 instr) 0 &&& 0xff
  .ok { cpu with bus := cpu.bus.store addr 8 val }

/-- `exec_sh` (cpu.rs:236). -/
def exec_sh (cpu : CPU) (instr : Nat) : Except RErr CPU :=
  let addr := i32ToU32 (i32wrap (u32ToI32 (cpu.xregs.getD (rs1 instr) 0) + imm_s instr))
  let val := cpu.xregs.getD (rs2 instr) 0 &&& 0xffff
  .ok { cpu with bus := cpu.bus.store addr 16 val }

/-- `exec_sw` (cpu.rs:242). -/
def exec_sw (cpu : CPU) (instr : Nat) : Except RErr CPU :=
  let addr := i32ToU32 (i32wrap (u32ToI32 (cpu.xregs.getD (rs1 instr) 0) + imm_s instr))
  let val := cpu.xregs.getD (rs2 instr) 0 &&& 0xffffffff
  .ok { cpu with bus := cpu.bus.store addr 32 val }

/-- `exec_addi` (cpu.rs:248): `rd ← (rs1 as i32).wrapping_add(imm_i) as u32`. -/
def exec_addi (cpu : CPU) (instr : Nat) : Except RErr CPU :=
  let imm := imm_i instr
  .ok { cpu with
    xregs := cpu.xregs.set (rd instr)
      (i32ToU32 (i32wrap (u32ToI32 (cpu.xregs.getD (rs1 instr) 0) + imm))) }

/-- `exec_slti` (cpu.rs:254): `rd ← ((rs1 as i32) < imm_i) as u32`. -/
def exec_slti (cpu : CPU) (instr : Nat) : Except RErr CPU :=
  let imm := imm_i instr
  .ok { cpu with
    xregs := cpu.xregs.set (rd instr)
      (if u32ToI32 (cpu.xregs.getD (rs1 instr) 0) < imm then 1 else 0) }

/-- `exec_sltiu` (cpu.rs:259): `rd ← (rs1 < imm_i as u32) as u32`. -/
def exec_sltiu (cpu : CPU) (instr : Nat) : Except RErr CPU :=
  let imm := imm_i instr
  .ok { cpu with
    xregs := cpu.xregs.set (rd instr)
      (if cpu.xregs.getD (rs1 instr) 0 < i32ToU32 imm then 1 else 0) }

/-- `exec_xori` (cpu.rs:263). -/
def exec_xori (cpu : CPU) (instr : Nat) : Except RErr CPU :=
  let imm := imm_i instr
  .ok { cpu with
    xregs := cpu.xregs.set (rd instr) (cpu.xregs.getD (rs1 instr) 0 ^^^ i32ToU32 imm) }

/-- `exec_ori` (cpu.rs:267). -/
def exec_ori (cpu : CPU) (instr : Nat) : Except RErr CPU :=
  let imm := imm_i instr
  .ok { cpu with
    xregs := cpu.xregs.set (rd instr) (cpu.xregs.getD (rs1 instr) 0 ||| i32ToU32 imm) }

/-- `exec_andi` (cpu.rs:271). -/
def exec_andi (cpu : CPU) (instr : Nat) : Except RErr CPU :=
  let imm := imm_i instr
  .ok { cpu with
    xregs := cpu.xregs.set (rd instr) (cpu.xregs.getD (rs1 instr) 0 &&& i32ToU32 imm) }

/-- `exec_slli` (cpu.rs:275): `rd ← rs1 << shamt`, `shamt < 32`, high bits
discarded by the `u32` shift. -/
def exec_slli (cpu : CPU) (instr : Nat) : Except RErr CPU :=
  let sh := shamt instr
  .ok { cpu with
    xregs := cpu.xregs.set (rd instr) ((cpu.xregs.getD (rs1 instr) 0 <<< sh) % 4294967296) }

/-- `exec_srli` (cpu.rs:281): `rd ← rs1 >> ((imm_i & 0x1f) as u32)`. -/
def exec_srli (cpu : CPU) (instr : Nat) : Except RErr CPU :=
  let sh := i32ToU32 (imm_i instr) &&& 0x1f
  .ok { cpu with
    xregs := cpu.xregs.set (rd instr) (cpu.xregs.getD (rs1 instr) 0 >>> sh) }

/-- `exec_srai` (cpu.rs:286): `rd ← (rs1 as i32 >> (imm_i & 0x1f)) as u32`,
an arithmetic right shift. -/
def exec_srai (cpu : CPU) (instr : Nat) : Except RErr CPU :=
  let sh := i32ToU32 (imm_i instr) &&& 0x1f
  .ok { cpu with
    xregs := cpu.xregs.set (rd instr)
      (i32ToU32 (Int.ediv (u32ToI32 (cpu.xregs.getD (rs1 instr) 0)) (2 ^ sh))) }

/-- `exec_add` (cpu.rs:291): `rd ← (rs1 as i32 + rs2 as i32) as u32` with the
unchecked Rust `+`, which overflows (panics under debug assertions) instead
of wrapping when the exact sum leaves the `i32` range. -/
def exec_add (cpu : CPU) (instr : Nat) : Except RErr CPU :=
  let s := u32ToI32 (cpu.xregs.getD (rs1 instr) 0) + u32ToI32 (cpu.xregs.getD (rs2 instr) 0)
  if s < -2147483648 ∨ 2147483648 ≤ s then .error .overflow else
  .ok { cpu with xregs := cpu.xregs.set (rd instr) (i32ToU32 s) }

/-- `exec_sub` (cpu.rs:296): `rd ← (rs1 as i32).wrapping_sub(rs2 as i32) as u32`. -/
def exec_sub (cpu : CPU) (instr : Nat) : Except RErr CPU :=
  .ok { cpu with
    xregs := cpu.xregs.set (rd instr)
      (i32ToU32 (i32wrap (u32ToI32 (cpu.xregs.getD (rs1 instr) 0) -
        u32ToI32 (cpu.xregs.getD (rs2 instr) 0)))) }

/-- `exec_sll` (cpu.rs:302): `rd ← ((rs1 as i32) << (rs2 as i32)) as u32`; the
shift amount is the full `rs2` value, and a Rust `i32` shift by an amount
that is negative or at least 32 overflows (panics under debug assertions). -/
def exec_sll (cpu : CPU) (instr : Nat) : Except RErr CPU :=
  let sh := u32ToI32 (cpu.xregs.getD (rs2 instr) 0)
  if sh < 0 ∨ 32 ≤ sh then .error .overflow else
  .ok { cpu with
    xregs := cpu.xregs.set (rd instr)
      (i32ToU32 (i32wrap (u32ToI32 (cpu.xregs.getD (rs1 instr) 0) * 2 ^ sh.toNat))) }

/-- `exec_slt` (cpu.rs:307): signed comparison result 0/1. -/
def exec_slt (cpu : CPU) (instr : Nat) : Except RErr CPU :=
  .ok { cpu with
    xregs := cpu.xregs.set (rd instr)
      (if u32ToI32 (cpu.xregs.getD (rs1 instr) 0) < u32ToI32 (cpu.xregs.getD (rs2 instr) 0)
       then 1 else 0) }

/-- `exec_sltu` (cpu.rs:312): unsigned comparison result 0/1. -/
def exec_sltu (cpu : CPU) (instr : Nat) : Except RErr CPU :=
  .ok { cpu with
    xregs := cpu.xregs.set (rd instr)
      (if cpu.xregs.getD (rs1 instr) 0 < cpu.xregs.getD (rs2 instr) 0 then 1 else 0) }

/-- `exec_xor` (cpu.rs:316). -/
def exec_xor (cpu : CPU) (instr : Nat) : Except RErr CPU :=
  .ok { cpu with
    xregs := cpu.xregs.set (rd instr)
      (cpu.xregs.getD (rs1 instr) 0 ^^^ cpu.xregs.getD (rs2 instr) 0) }

/-- `exec_srl` (cpu.rs:320): `rd ← rs1 >> rs2`; a `u32` shift by an amount of
at least 32 overflows (panics under debug assertions). -/
def exec_srl (cpu : CPU) (instr : Nat) : Except RErr CPU :=
  let sh := cpu.xregs.getD (rs2 instr) 0
  if 32 ≤ sh then .error .overflow else
  .ok { cpu with
    xregs := cpu.xregs.set (rd instr) (cpu.xregs.getD (rs1 instr) 0 >>> sh) }

/-- `exec_sra` (cpu.rs:324): `rd ← ((rs1 as i32) >> (rs2 as i32)) as u32`, an
arithmetic shift; an amount that is negative or at least 32 overflows. -/
def exec_sra (cpu : CPU) (instr : Nat) : Except RErr CPU :=
  let sh := u32ToI32 (cpu.xregs.getD (rs2 instr) 0)
  if sh < 0 ∨ 32 ≤ sh then .error .overflow else
  .ok { cpu with
    xregs := cpu.xregs.set (rd instr)
      (i32ToU32 (Int.ediv (u32ToI32 (cpu.xregs.getD (rs1 instr) 0)) (2 ^ sh.toNat))) }

/-- `exec_or` (cpu.rs:329). -/
def exec_or (cpu : CPU) (instr : Nat) : Except RErr CPU :=
  .ok { cpu with
    xregs := cpu.xregs.set (rd instr)
      (cpu.xregs.getD (rs1 instr) 0 ||| cpu.xregs.getD (rs2 instr) 0) }

/-- `exec_and` (cpu.rs:333). -/
def exec_and (cpu : CPU) (instr : Nat) : Except RErr CPU :=
  .ok { cpu with
    xregs := cpu.xregs.set (rd instr)
      (cpu.xregs.getD (rs1 instr) 0 &&& cpu.xregs.getD (rs2 instr) 0) }

/-- `exec_fence` (cpu.rs:337): stub, no effect. -/
def exec_fence (cpu : CPU) (_instr : Nat) : Except RErr CPU := .ok cpu

/-- `exec_fence_i` (cpu.rs:338): stub, no effect. -/
def exec_fence_i (cpu : CPU) (_instr : Nat) : Except RErr CPU := .ok cpu

/-- `exec_ecall` (cpu.rs:339): stub, no effect. -/
def exec_ecall (cpu : CPU) (_instr : Nat) : Except RErr CPU := .ok cpu

/-- `exec_ebreak` (cpu.rs:340): stub, no effect. -/
def exec_ebreak (cpu : CPU) (_instr : Nat) : Except RErr CPU := .ok cpu

/-- `exec_csrrw` (cpu.rs:341): stub, no effect. -/
def exec_csrrw (cpu : CPU) (_instr : Nat) : Except RErr CPU := .ok cpu

/-- `exec_csrrs` (cpu.rs:342): stub, no effect. -/
def exec_csrrs (cpu : CPU) (_instr : Nat) : Except RErr CPU := .ok cpu

/-- `exec_csrrc` (cpu.rs:343): stub, no effect. -/
def exec_csrrc (cpu : CPU) (_instr : Nat) : Except RErr CPU := .ok cpu

/-- `exec_csrrwi` (cpu.rs:344): stub, no effect. -/
def exec_csrrwi (cpu : CPU) (_instr : Nat) : Except RErr CPU := .ok cpu

/-- `exec_csrrsi` (cpu.rs:345): stub, no effect. -/
def exec_csrrsi (cpu : CPU) (_instr : Nat) : Except RErr CPU := .ok cpu

/-- `exec_csrrci` (cpu.rs:346): stub, no effect. -/
def exec_csrrci (cpu : CPU) (_instr : Nat) : Except RErr CPU := .ok cpu

/-- `CPU::execute` (cpu.rs:32): decode `opcode`/`funct3`/`funct7`, re-zero
register 0, then dispatch through the nested match.  `_ => panic!` arms are
`.error .panicked`; the silent `_ => ()` arms of the R-type ADD/SUB and
SRL/SRA funct7 matches and of the ECALL/EBREAK immediate match are `.ok`
with no further state change. -/
def execute (cpu0 : CPU) (instr : Nat) : Except RErr CPU :=
  let opcode := instr &&& 0x7f
  let funct3 := (instr >>> 12) &&& 0x7
  let funct7 := (instr >>> 25) &&& 0x7f
  let cpu : CPU := { cpu0 with xregs := cpu0.xregs.set 0 0 }
  if opcode = LUI then exec_lui cpu instr
  else if opcode = AUIPC then exec_auipc cpu instr
  else if opcode = JAL then exec_jal cpu instr
  else if opcode = JALR then exec_jalr cpu instr
  else if opcode = B_TYPE then
    if funct3 = BEQ then exec_beq cpu instr
    else if funct3 = BNE then exec_bne cpu instr
    else if funct3 = BLT then exec_blt cpu instr
    else if funct3 = BGE then exec_bge cpu instr
    else if funct3 = BLTU then exec_bltu cpu instr
    else if funct3 = BGEU then exec_bgeu cpu instr
    else .error .panicked
  else if opcode = LOAD then
    if funct3 = LB then exec_lb cpu instr
    else if funct3 = LH then exec_lh cpu instr
    else if funct3 = LW then exec_lw cpu instr
    else if funct3 = LBU then exec_lbu cpu instr
    else if funct3 = LHU then exec_lhu cpu instr
    else if funct3 = LWU then exec_lwu cpu instr
    else .error .panicked
  else if opcode = S_TYPE then
    if funct3 = SB then exec_sb cpu instr
    else if funct3 = SH then exec_sh cpu instr
    else if funct3 = SW then exec_sw cpu instr
    else .error .panicked
  else if opcode = I_TYPE then
    if funct3 = ADDI then exec_addi cpu instr
    else if funct3 = SLLI then exec_slli cpu instr
    else if funct3 = SLTI then exec_slti cpu instr
    else if funct3 = SLTIU then exec_sltiu cpu instr
    else if funct3 = XORI then exec_xori cpu instr
    else if funct3 = SRI then
      if funct7 = SRLI then exec_srli cpu instr
      else if funct7 = SRAI then exec_srai cpu instr
      else .error .panicked
    else if funct3 = ORI then exec_ori cpu instr
    else if funct3 = ANDI then exec_andi cpu instr
    else .error .panicked
  else if opcode = R_TYPE then
    if funct3 = ADDSUB then
      if funct7 = ADD then exec_add cpu instr
      else if funct7 = SUB then exec_sub cpu instr
      else .ok cpu
    else if funct3 = SLL then exec_sll cpu instr
    else if funct3 = SLT then exec_slt cpu instr
    else if funct3 = SLTU then exec_sltu cpu instr
    else if funct3 = XOR then exec_xor cpu instr
    else if funct3 = SR then
      if funct7 = SRL then exec_srl cpu instr
      else if funct7 = SRA then exec_sra cpu instr
      else .ok cpu
    else if funct3 = OR then exec_or cpu instr
    else if funct3 = AND then exec_and cpu instr
    else .error .panicked
  else if opcode = FENCE then exec_fence cpu instr
  else if opcode = CSR then
    if funct3 = ECALL ∨ funct3 = EBREAK then
      if imm_i instr = 0x0 then exec_ecall cpu instr
      else if imm_i instr = 0x1 then exec_ebreak cpu instr
      else .ok cpu
    else if funct3 = CSRRW then exec_csrrw cpu instr
    else if funct3 = CSRRS then exec_csrrs cpu instr
    else if funct3 = CSRRC then exec_csrrc cpu instr
    else if funct3 = CSRRWI then exec_csrrwi cpu instr
    else if funct3 = CSRRSI then exec_csrrsi cpu instr
    else if funct3 = CSRRCI then exec_csrrci cpu instr
    else .error .panicked
  else .error .panicked

end RV

namespace RV

theorem i32ToU32_i32wrap (x : Int) : i32ToU32 (i32wrap x) = i32ToU32 x := by
  unfold i32ToU32 i32wrap
  omega

theorem wrap_sub4 (a : Int) : i32ToU32 (i32wrap (i32wrap a - 4)) = i32ToU32 (a - 4) := by
  unfold i32ToU32 i32wrap
  omega

theorem imm_i_bounds (instr : Nat) : -2048 ≤ imm_i instr ∧ imm_i instr < 2048 := by
  unfold imm_i sext
  have h : (instr >>> 20) &&& 0xfff ≤ 0xfff := Nat.and_le_right
  split <;> omega

theorem rd_lt (instr : Nat) : rd instr < 32 :=
  Nat.lt_succ_of_le Nat.and_le_right

/-- A bus that always loads zero and has seen no store. -/
def busZ : BUS := { loadFn := fun _ _ => 0, stores := [] }

/-- A CPU whose 32 registers are all zero. -/
def cpuZero : CPU := { xregs := List.replicate 32 0, pc := 0, bus := busZ }

/-- A CPU whose memory reads back `0x80` at every address and width. -/
def cpuByte80 : CPU :=
  { xregs := List.replicate 32 0, pc := 0,
    bus := { loadFn := fun _ _ => 0x80, stores := [] } }

/-- A CPU whose memory reads back `0xff` at every address and width. -/
def cpuByteFF : CPU :=
  { xregs := List.replicate 32 0, pc := 0,
    bus := { loadFn := fun _ _ => 0xff, stores := [] } }

/-- A CPU with `x1 = 1` and `x2 = 32` (a shift amount of 32). -/
def cpuShift : CPU :=
  { xregs := ((List.replicate 32 0).set 1 1).set 2 32, pc := 0, bus := busZ }

/-- A CPU with `x1 = 0x1000` and `pc = 0x100`. -/
def cpuJump : CPU :=
  { xregs := (List.replicate 32 0).set 1 0x1000, pc := 0x100, bus := busZ }

/-- A CPU with `x1 = i32::MAX` and `x2 = 1`. -/
def cpuAdd : CPU :=
  { xregs := ((List.replicate 32 0).set 1 0x7fffffff).set 2 1, pc := 0, bus := busZ }

/-- A CPU with `x1 = i32::MIN` (as a bit pattern) and `x2 = 1`. -/
def cpuSub : CPU :=
  { xregs := ((List.replicate 32 0).set 1 0x80000000).set 2 1, pc := 0, bus := busZ }

/-- C1: the claim says every `(opcode, funct3, funct7)` combination outside
the dispatch table is reported as a recoverable IllegalInstruction, never a
process abort and never a silent no-op.  The code does the opposite on both
counts: the all-zero instruction word (opcode `0x00`, in no dispatch arm)
hits `_ => panic!` and aborts, and the R-type word `0x02000033`
(`funct3 = 0`, `funct7 = 0x01`, the RV32M MUL encoding, absent from the
table) falls into the silent `_ => ()` arm and completes as a no-op that
only re-zeroes register 0. -/
theorem illegal_dispatch_panics_or_silently_ignores :
    execute cpuZero 0x00000000 = .error .panicked ∧
    execute cpuZero 0x02000033 = .ok { cpuZero with xregs := cpuZero.xregs.set 0 0 } :=
  ⟨rfl, rfl⟩

/-- C2: the claim says `exec_lb` writes the sign extension of the fetched
byte (replicating bit 7).  The code computes `((byte as i32) << 26) >> 26`,
which sign-extends from bit 5 instead: for the byte `0x80` it stores `0`
into `rd` where the sign extension of `0x80` is `0xffffff80`.  The claim's
two concrete instances do hold: LB of byte `0xff` yields `0xffffffff` and
LBU of the same byte yields `0x000000ff` (the instruction words are
`LB x1, 0(x0)` = `0x00000083` and `LBU x1, 0(x0)` = `0x00004083`). -/
theorem lb_sign_extends_from_bit5_not_bit7 :
    (execute cpuByte80 0x00000083).map (fun s => s.xregs.getD 1 0) = .ok 0 ∧
    i32ToU32 (sext 8 0x80) = 0xffffff80 ∧
    (execute cpuByteFF 0x00000083).map (fun s => s.xregs.getD 1 0) = .ok 0xffffffff ∧
    (execute cpuByteFF 0x00004083).map (fun s => s.xregs.getD 1 0) = .ok 0xff :=
  ⟨rfl, rfl, rfl, rfl⟩

/-- C3: the claim says SLL/SRL/SRA apply only the low 5 bits of `rs2`
(`rs2 mod 32`), well defined for every `rs2` value.  The code shifts by the
full `rs2` value; with `x2 = 32` (whose low 5 bits are 0, so the claimed
result is `x1` unchanged) `SLL x3, x1, x2` = `0x002091b3`,
`SRL x3, x1, x2` = `0x0020d1b3` and `SRA x3, x1, x2` = `0x4020d1b3` all
overflow the Rust shift (a panic under debug assertions) instead. -/
theorem register_shift_amount_not_masked :
    execute cpuShift 0x002091B3 = .error .overflow ∧
    execute cpuShift 0x0020D1B3 = .error .overflow ∧
    execute cpuShift 0x4020D1B3 = .error .overflow ∧
    cpuShift.xregs.getD 2 0 &&& 0x1f = 0 :=
  ⟨rfl, rfl, rfl, rfl⟩

/-- C4 counterexample: `JALR x2, 8(x1)` = `0x00808167` with `x1 = 0x1000`
and `pc = 0x100` sets PC to the computed jump target `0x1008` itself, not
to the target minus 4 (`0x1004`) as the claim requires of every branch/jump
routine. -/
theorem jalr_sets_final_target_without_minus4 :
    (execute cpuJump 0x00808167).map (fun s => s.pc) = .ok 0x1008 ∧
    (execute cpuJump 0x00808167).map (fun s => s.pc) ≠ .ok (0x1008 - 4) :=
  ⟨rfl, by
    rw [show (execute cpuJump 0x00808167).map (fun s => s.pc) = Except.ok (0x1008 : Nat)
      from rfl]
    simp⟩

/-- C4 (amended): JAL and the six taken B-type branches set PC to
(signed PC + signed immediate) − 4, compensating the driving loop's +4;
JALR does not: it sets PC directly to (rs1 + signed I-immediate) with the
low bit cleared, with no −4 compensation, so the two PC conventions are
mixed across the branch/jump routines. -/
theorem pc_contract_mixed_conventions (cpu : CPU) (instr : Nat)
    (h4 : cpu.pc + 4 < 4294967296) (hne : rd instr ≠ rs1 instr) :
    ((exec_jal cpu instr).map (fun s => s.pc) =
      .ok (i32ToU32 (u32ToI32 cpu.pc + imm_j instr - 4))) ∧
    ((exec_jalr cpu instr).map (fun s => s.pc) =
      .ok (i32ToU32 (u32ToI32 (cpu.xregs.getD (rs1 instr) 0) + imm_i instr) &&& 0xfffffffe)) ∧
    (cpu.xregs.getD (rs1 instr) 0 = cpu.xregs.getD (rs2 instr) 0 →
      (exec_beq cpu instr).map (fun s => s.pc) =
        .ok (i32ToU32 (u32ToI32 cpu.pc + imm_b instr - 4))) ∧
    (cpu.xregs.getD (rs1 instr) 0 ≠ cpu.xregs.getD (rs2 instr) 0 →
      (exec_bne cpu instr).map (fun s => s.pc) =
        .ok (i32ToU32 (u32ToI32 cpu.pc + imm_b instr - 4))) ∧
    (u32ToI32 (cpu.xregs.getD (rs1 instr) 0) < u32ToI32 (cpu.xregs.getD (rs2 instr) 0) →
      (exec_blt cpu instr).map (fun s => s.pc) =
        .ok (i32ToU32 (u32ToI32 cpu.pc + imm_b instr - 4))) ∧
    (u32ToI32 (cpu.xregs.getD (rs1 instr) 0) ≥ u32ToI32 (cpu.xregs.getD (rs2 instr) 0) →
      (exec_bge cpu instr).map (fun s => s.pc) =
        .ok (i32ToU32 (u32ToI32 cpu.pc + imm_b instr - 4))) ∧
    (cpu.xregs.getD (rs1 instr) 0 < cpu.xregs.getD (rs2 instr) 0 →
      (exec_bltu cpu instr).map (fun s => s.pc) =
        .ok (i32ToU32 (u32ToI32 cpu.pc + imm_b instr - 4))) ∧
    (cpu.xregs.getD (rs1 instr) 0 ≥ cpu.xregs.getD (rs2 instr) 0 →
      (exec_bgeu cpu instr).map (fun s => s.pc) =
        .ok (i32ToU32 (u32ToI32 cpu.pc + imm_b instr - 4))) := by
  refine ⟨?_, ?_, ?_, ?_, ?_, ?_, ?_, ?_⟩
  · simp [exec_jal, Except.map, wrap_sub4]
  · simp only [exec_jalr]
    rw [if_neg (by omega)]
    rw [show ((cpu.xregs.set (rd instr) (cpu.pc + 4)).getD (rs1 instr) 0) =
        cpu.xregs.getD (rs1 instr) 0 by
      simp [List.getD, List.getElem?_set_ne hne]]
    simp [Except.map, i32ToU32_i32wrap]
  · intro h
    simp only [exec_beq]
    rw [if_pos h]
    simp [Except.map, wrap_sub4]
  · intro h
    simp only [exec_bne]
    rw [if_pos h]
    simp [Except.map, wrap_sub4]
  · intro h
    simp only [exec_blt]
    rw [if_pos h]
    simp [Except.map, wrap_sub4]
  · intro h
    simp only [exec_bge]
    rw [if_pos h]
    simp [Except.map, wrap_sub4]
  · intro h
    simp only [exec_bltu]
    rw [if_pos h]
    simp [Except.map, wrap_sub4]
  · intro h
    simp only [exec_bgeu]
    rw [if_pos h]
    simp [Except.map, wrap_sub4]

/-- C4 witness: the mixed-convention theorem applied to `JALR x2, 8(x1)`
from `pc = 0x100`. -/
theorem pc_contract_mixed_conventions_witness :
    (cpuJump.pc + 4 < 4294967296 ∧ rd 0x00808167 ≠ rs1 0x00808167) ∧
    ((exec_jal cpuJump 0x00808167).map (fun s => s.pc) =
      .ok (i32ToU32 (u32ToI32 cpuJump.pc + imm_j 0x00808167 - 4))) ∧
    ((exec_jalr cpuJump 0x00808167).map (fun s => s.pc) =
      .ok (i32ToU32 (u32ToI32 (cpuJump.xregs.getD (rs1 0x00808167) 0) + imm_i 0x00808167) &&&
        0xfffffffe)) ∧
    (cpuJump.xregs.getD (rs1 0x00808167) 0 = cpuJump.xregs.getD (rs2 0x00808167) 0 →
      (exec_beq cpuJump 0x00808167).map (fun s => s.pc) =
        .ok (i32ToU32 (u32ToI32 cpuJump.pc + imm_b 0x00808167 - 4))) ∧
    (cpuJump.xregs.getD (rs1 0x00808167) 0 ≠ cpuJump.xregs.getD (rs2 0x00808167) 0 →
      (exec_bne cpuJump 0x00808167).map (fun s => s.pc) =
        .ok (i32ToU32 (u32ToI32 cpuJump.pc + imm_b 0x00808167 - 4))) ∧
    (u32ToI32 (cpuJump.xregs.getD (rs1 0x00808167) 0) <
        u32ToI32 (cpuJump.xregs.getD (rs2 0x00808167) 0) →
      (exec_blt cpuJump 0x00808167).map (fun s => s.pc) =
        .ok (i32ToU32 (u32ToI32 cpuJump.pc + imm_b 0x00808167 - 4))) ∧
    (u32ToI32 (cpuJump.xregs.getD (rs1 0x00808167) 0) ≥
        u32ToI32 (cpuJump.xregs.getD (rs2 0x00808167) 0) →
      (exec_bge cpuJump 0x00808167).map (fun s => s.pc) =
        .ok (i32ToU32 (u32ToI32 cpuJump.pc + imm_b 0x00808167 - 4))) ∧
    (cpuJump.xregs.getD (rs1 0x00808167) 0 < cpuJump.xregs.getD (rs2 0x00808167) 0 →
      (exec_bltu cpuJump 0x00808167).map (fun s => s.pc) =
        .ok (i32ToU32 (u32ToI32 cpuJump.pc + imm_b 0x00808167 - 4))) ∧
    (cpuJump.xregs.getD (rs1 0x00808167) 0 ≥ cpuJump.xregs.getD (rs2 0x00808167) 0 →
      (exec_bgeu cpuJump 0x00808167).map (fun s => s.pc) =
        .ok (i32ToU32 (u32ToI32 cpuJump.pc + imm_b 0x00808167 - 4))) :=
  ⟨⟨by decide, by decide⟩,
    pc_contract_mixed_conventions cpuJump 0x00808167 (by decide) (by decide)⟩

/-- C5: each B-type branch compares `rs1` and `rs2` — equality for BEQ,
inequality for BNE, signed order for BLT/BGE, unsigned order for BLTU/BGEU —
and, when the condition holds, redirects PC to PC + signed B-immediate − 4
(the two-party contract), while otherwise the routine leaves the whole
state unchanged. -/
theorem branch_compare_and_redirect (cpu : CPU) (instr : Nat) :
    (exec_beq cpu instr =
      .ok (if cpu.xregs.getD (rs1 instr) 0 = cpu.xregs.getD (rs2 instr) 0 then
        { cpu with pc := i32ToU32 (u32ToI32 cpu.pc + imm_b instr - 4) } else cpu)) ∧
    (exec_bne cpu instr =
      .ok (if cpu.xregs.getD (rs1 instr) 0 ≠ cpu.xregs.getD (rs2 instr) 0 then
        { cpu with pc := i32ToU32 (u32ToI32 cpu.pc + imm_b instr - 4) } else cpu)) ∧
    (exec_blt cpu instr =
      .ok (if u32ToI32 (cpu.xregs.getD (rs1 instr) 0) < u32ToI32 (cpu.xregs.getD (rs2 instr) 0)
        then { cpu with pc := i32ToU32 (u32ToI32 cpu.pc + imm_b instr - 4) } else cpu)) ∧
    (exec_bge cpu instr =
      .ok (if u32ToI32 (cpu.xregs.getD (rs1 instr) 0) ≥ u32ToI32 (cpu.xregs.getD (rs2 instr) 0)
        then { cpu with pc := i32ToU32 (u32ToI32 cpu.pc + imm_b instr - 4) } else cpu)) ∧
    (exec_bltu cpu instr =
      .ok (if cpu.xregs.getD (rs1 instr) 0 < cpu.xregs.getD (rs2 instr) 0 then
        { cpu with pc := i32ToU32 (u32ToI32 cpu.pc + imm_b instr - 4) } else cpu)) ∧
    (exec_bgeu cpu instr =
      .ok (if cpu.xregs.getD (rs1 instr) 0 ≥ cpu.xregs.getD (rs2 instr) 0 then
        { cpu with pc := i32ToU32 (u32ToI32 cpu.pc + imm_b instr - 4) } else cpu)) := by
  refine ⟨?_, ?_, ?_, ?_, ?_, ?_⟩ <;>
    first
    | (simp only [exec_beq]; split <;> simp [wrap_sub4])
    | (simp only [exec_bne]; split <;> simp [wrap_sub4])
    | (simp only [exec_blt]; split <;> simp [wrap_sub4])
    | (simp only [exec_bge]; split <;> simp [wrap_sub4])
    | (simp only [exec_bltu]; split <;> simp [wrap_sub4])
    | (simp only [exec_bgeu]; split <;> simp [wrap_sub4])

/-- C6: a prior write of any value `v` to register 0 has no observable
effect on the next executed instruction: `execute` re-zeroes register 0
before dispatching, so the whole outcome (result or panic, registers, PC,
memory) is the same as if the write had not happened. -/
theorem reg0_write_has_no_observable_effect (cpu : CPU) (v : Nat) (instr : Nat) :
    execute { cpu with xregs := cpu.xregs.set 0 v } instr = execute cpu instr := by
  simp only [execute, List.set_set]

/-- C7: the claim says ADD, SUB and ADDI all wrap silently mod `2^32`.
ADDI and SUB do — `ADDI x3, x1, 1` = `0x00108193` with `x1 = i32::MAX`
wraps to `0x80000000`, and `SUB x3, x1, x2` = `0x402081b3` with
`x1 = i32::MIN`, `x2 = 1` wraps to `0x7fffffff` — but ADD uses the
unchecked Rust `+` on `i32`, so `ADD x3, x1, x2` = `0x002081b3` on
`x1 = i32::MAX`, `x2 = 1` overflows (a panic under debug assertions)
instead of completing with the wrapped result. -/
theorem add_unchecked_overflow_but_sub_addi_wrap :
    execute cpuAdd 0x002081B3 = .error .overflow ∧
    (execute cpuAdd 0x00108193).map (fun s => s.xregs.getD 3 0) = .ok 0x80000000 ∧
    (execute cpuSub 0x402081B3).map (fun s => s.xregs.getD 3 0) = .ok 0x7fffffff :=
  ⟨rfl, rfl, rfl⟩

/-- C8: for any register value below `2^32`, the effective address the
unsigned load variants compute with unsigned wrapping addition
(`rs1.wrapping_add(imm_i as u32)`, as in `exec_lbu`/`exec_lhu`/`exec_lwu`)
equals the one the signed variants compute with signed wrapping addition
(`(rs1 as i32).wrapping_add(imm_i) as u32`, as in
`exec_lb`/`exec_lh`/`exec_lw`). -/
theorem load_effective_address_unsigned_eq_signed (cpu : CPU) (instr : Nat)
    (h : cpu.xregs.getD (rs1 instr) 0 < 4294967296) :
    loadAddrUnsigned cpu instr = loadAddrSigned cpu instr := by
  obtain ⟨h1, h2⟩ := imm_i_bounds instr
  unfold loadAddrUnsigned loadAddrSigned i32ToU32 i32wrap u32ToI32
  split <;> omega

/-- C8 witness: the address agreement applied to `LB x1, -4(x1)` with
`x1 = 0x1000`. -/
theorem load_effective_address_unsigned_eq_signed_witness :
    cpuJump.xregs.getD (rs1 0xffc08083) 0 < 4294967296 ∧
    loadAddrUnsigned cpuJump 0xffc08083 = loadAddrSigned cpuJump 0xffc08083 :=
  ⟨by decide, load_effective_address_unsigned_eq_signed cpuJump 0xffc08083 (by decide)⟩

/-- The instruction words the dispatcher routes to the reserved extension
stubs: any FENCE-opcode word, the CSR-opcode words with a CSRRW/CSRRS/
CSRRC/CSRRWI/CSRRSI/CSRRCI funct3, and ECALL/EBREAK (CSR opcode, the shared
funct3, I-immediate 0 or 1). -/
def extensionPoint (instr : Nat) : Prop :=
  (instr &&& 0x7f = FENCE) ∨
  (instr &&& 0x7f = CSR ∧
    ((instr >>> 12) &&& 0x7 = CSRRW ∨ (instr >>> 12) &&& 0x7 = CSRRS ∨
     (instr >>> 12) &&& 0x7 = CSRRC ∨ (instr >>> 12) &&& 0x7 = CSRRWI ∨
     (instr >>> 12) &&& 0x7 = CSRRSI ∨ (instr >>> 12) &&& 0x7 = CSRRCI)) ∨
  (instr &&& 0x7f = CSR ∧ ((instr >>> 12) &&& 0x7 = ECALL ∨ (instr >>> 12) &&& 0x7 = EBREAK) ∧
    (imm_i instr = 0x0 ∨ imm_i instr = 0x1))

theorem execute_extensionPoint_eq (cpu : CPU) (instr : Nat) (h : extensionPoint instr) :
    execute cpu instr = .ok { cpu with xregs := cpu.xregs.set 0 0 } := by
  rcases h with h | ⟨h, h3 | h3 | h3 | h3 | h3 | h3⟩ | ⟨h, h3, hi | hi⟩ <;>
    simp_all [execute, LUI, AUIPC, JAL, JALR, B_TYPE, LOAD, S_TYPE, I_TYPE, R_TYPE, FENCE, CSR,
      CSRRW, CSRRS, CSRRC, CSRRWI, CSRRSI, CSRRCI, ECALL, EBREAK,
      exec_fence, exec_ecall, exec_ebreak, exec_csrrw, exec_csrrs, exec_csrrc,
      exec_csrrwi, exec_csrrsi, exec_csrrci]

/-- C9: every FENCE, CSR-family, ECALL and EBREAK instruction is accepted
by `execute` (an `ok` result, never IllegalInstruction) and has no
observable architectural effect: PC, the memory bus and registers x1..x31
are exactly those of the incoming state. -/
theorem extension_points_accepted_no_effect (cpu : CPU) (instr : Nat)
    (h : extensionPoint instr) :
    ∃ s, execute cpu instr = Except.ok s ∧ s.pc = cpu.pc ∧ s.bus = cpu.bus ∧
      ∀ i, i < 32 → i ≠ 0 → s.xregs.getD i 0 = cpu.xregs.getD i 0 := by
  refine ⟨{ cpu with xregs := cpu.xregs.set 0 0 }, execute_extensionPoint_eq cpu instr h,
    rfl, rfl, ?_⟩
  intro i _ hi
  simp [List.getD, List.getElem?_set_ne (Ne.symm hi)]

/-- C9 witness: the no-effect theorem applied to the FENCE word
`0x0000000f` on a state with nonzero `x1` and PC. -/
theorem extension_points_accepted_no_effect_witness :
    extensionPoint 0x0000000f ∧
    ∃ s, execute cpuJump 0x0000000f = Except.ok s ∧ s.pc = cpuJump.pc ∧ s.bus = cpuJump.bus ∧
      ∀ i, i < 32 → i ≠ 0 → s.xregs.getD i 0 = cpuJump.xregs.getD i 0 :=
  ⟨Or.inl rfl, extension_points_accepted_no_effect cpuJump 0x0000000f (Or.inl rfl)⟩

/-- C10: for a JALR whose `rd` and `rs1` name the same register `r ≠ 0`,
`exec_jalr` writes the return address `pc + 4` into `r` first and then reads
the jump base from the updated register file, so the new PC is
`((pc + 4) + signed I-immediate)` with the low bit cleared — independent of
the value `r` held before the instruction. -/
theorem jalr_writes_link_register_before_jump_base (cpu : CPU) (instr : Nat)
    (hlen : cpu.xregs.length = 32) (heq : rd instr = rs1 instr) (h0 : rd instr ≠ 0)
    (h4 : cpu.pc + 4 < 4294967296) :
    exec_jalr cpu instr = .ok { cpu with
      xregs := cpu.xregs.set (rd instr) (cpu.pc + 4),
      pc := i32ToU32 (u32ToI32 (cpu.pc + 4) + imm_i instr) &&& 0xfffffffe } := by
  simp only [exec_jalr]
  rw [if_neg (by omega)]
  rw [← heq]
  rw [show ((cpu.xregs.set (rd instr) (cpu.pc + 4)).getD (rd instr) 0) = cpu.pc + 4 by
    simp [List.getD, List.getElem?_set_self, hlen ▸ rd_lt instr]]
  rw [i32ToU32_i32wrap]

/-- C10 witness: the theorem applied to `JALR x1, 0x20(x1)` = `0x020080e7`
with `x1 = 0x1000` and `pc = 0x100`: the new PC is `(0x104 + 0x20) & ~1`,
not a function of the old `0x1000`. -/
theorem jalr_writes_link_register_before_jump_base_witness :
    (cpuJump.xregs.length = 32 ∧ rd 0x020080E7 = rs1 0x020080E7 ∧ rd 0x020080E7 ≠ 0 ∧
      cpuJump.pc + 4 < 4294967296) ∧
    exec_jalr cpuJump 0x020080E7 = .ok { cpuJump with
      xregs := cpuJump.xregs.set (rd 0x020080E7) (cpuJump.pc + 4),
      pc := i32ToU32 (u32ToI32 (cpuJump.pc + 4) + imm_i 0x020080E7) &&& 0xfffffffe } :=
  ⟨⟨by decide, by decide, by decide, by decide⟩,
    jalr_writes_link_register_before_jump_base cpuJump 0x020080E7
      (by decide) (by decide) (by decide) (by decide)⟩

end RV
